import Mathlib

set_option maxHeartbeats 1000000

/-!
Shallow embedding of the OpenList remote-file client
(src/lib/openlist.client.ts) and of the correction endpoint handler
(POST /api/openlist/correct).  Network interaction is modelled by an
explicit world value supplying the outcome of each HTTP call, so that
every operation is a pure function of its inputs and the world.
-/

/-- HTTP response as the client observes it: a status code and a body text. -/
structure Response where
  status : Nat
  bodyText : String
deriving DecidableEq

/-- Outcome of one fetch call: a response, or a thrown network error. -/
inductive NetOutcome where
  | resp (r : Response)
  | thrown (msg : String)
deriving DecidableEq

/-- World for one client operation: the outcome of the i-th data request
issued by the operation, and the outcome of a login call (some token on
success; none when the login request fails in any way, which the
refreshToken catch block turns into a false return). -/
structure World where
  net : Nat → NetOutcome
  login : Option String

/-- Client state: the constructor arguments of OpenListClient.  The token
is mutable in the source; here the updated client is returned. -/
structure Client where
  baseURL : String
  token : String
  username : Option String
  password : Option String
deriving DecidableEq

/-- JavaScript truthiness of an optional string: absent and empty are falsy. -/
def strTruthy : Option String → Bool
  | some s => !s.isEmpty
  | none => false

/-- Result of a call through the retry wrapper: final client state, the
returned response (or a propagated thrown error), and how many data
requests and login requests were issued during the call. -/
structure FetchResult where
  client : Client
  outcome : Except String Response
  nRequests : Nat
  nLogins : Nat

/-- Result of refreshToken: new client state, whether the refresh
succeeded, and how many login requests were issued. -/
structure RefreshOutcome where
  client : Client
  refreshed : Bool
  nLogins : Nat
deriving DecidableEq

/-- OpenListClient.refreshToken: without truthy credentials it returns
false at once; otherwise it attempts one login, storing the fresh token on
success, and catches any login failure, reporting false. -/
def refreshToken (w : World) (c : Client) : RefreshOutcome :=
  if !strTruthy c.username || !strTruthy c.password then
    ⟨c, false, 0⟩
  else
    match w.login with
    | some t => ⟨{ c with token := t }, true, 1⟩
    | none => ⟨c, false, 1⟩

/-- Response.ok of the fetch API: status in the range [200, 300). -/
def Response.ok (r : Response) : Bool := 200 ≤ r.status && r.status < 300

/-- OpenListClient.fetchWithRetry: issue the request; if the response has
status 401, this is the first attempt, and both username and password are
truthy, refresh the token and reissue the request exactly once with the
retried flag set. -/
def fetchWithRetry (w : World) (c : Client) (retried : Bool) (i : Nat) : FetchResult :=
  match w.net i with
  | .thrown m => ⟨c, .error m, 1, 0⟩
  | .resp response =>
    if h : response.status == 401 && !retried && strTruthy c.username && strTruthy c.password then
      let rt := refreshToken w c
      if rt.refreshed then
        let r := fetchWithRetry w rt.client true (i + 1)
        ⟨r.client, r.outcome, r.nRequests + 1, r.nLogins + rt.nLogins⟩
      else
        ⟨rt.client, .ok response, 1, rt.nLogins⟩
    else
      ⟨c, .ok response, 1, 0⟩
termination_by (!retried).toNat
decreasing_by
  simp only [Bool.and_eq_true, Bool.not_eq_true'] at h
  rw [h.1.1.2]
  decide

/-- OpenListClient.listDirectory: routed through the retry wrapper; a
non-ok response is turned into a thrown error. -/
def listDirectory (w : World) (c : Client) : Client × Except String Response :=
  let r := fetchWithRetry w c false 0
  match r.outcome with
  | .error m => (r.client, .error m)
  | .ok response =>
    if !response.ok then
      (r.client, .error ("OpenList API 错误: " ++ toString response.status))
    else
      (r.client, .ok response)

/-- OpenListClient.getFile: routed through the retry wrapper; a non-ok
response is turned into a thrown error. -/
def getFile (w : World) (c : Client) : Client × Except String Response :=
  let r := fetchWithRetry w c false 0
  match r.outcome with
  | .error m => (r.client, .error m)
  | .ok response =>
    if !response.ok then
      (r.client, .error ("OpenList API 错误: " ++ toString response.status))
    else
      (r.client, .ok response)

/-- OpenListClient.deleteFile: routed through the retry wrapper; a non-ok
response is turned into a thrown error. -/
def deleteFile (w : World) (c : Client) : Client × Except String Response :=
  let r := fetchWithRetry w c false 0
  match r.outcome with
  | .error m => (r.client, .error m)
  | .ok response =>
    if !response.ok then
      (r.client, .error ("OpenList 删除失败: " ++ toString response.status))
    else
      (r.client, .ok response)

/-- Index of the last '/' in a character list, as String.lastIndexOf. -/
def lastIndexOfSlash (l : List Char) : Option Nat :=
  if l.contains '/' then some (l.length - 1 - l.reverse.indexOf '/') else none

/-- Containing directory of a path, as computed by the source:
path.substring(0, path.lastIndexOf('/')) with a falsy result replaced by
the root directory. -/
def dirOf (path : List Char) : List Char :=
  match lastIndexOfSlash path with
  | none => ['/']
  | some 0 => ['/']
  | some n => path.take n

/-- OpenListClient.refreshDirectory: one call through the retry wrapper
inside a try block; a non-ok response is only logged, and any thrown error
is caught and logged, so the operation always returns normally. -/
def refreshDirectory (w : World) (c : Client) : Client × Except String Unit :=
  let r := fetchWithRetry w c false 0
  match r.outcome with
  | .error _ => (r.client, .ok ())
  | .ok _response => (r.client, .ok ())

/-- OpenListClient.uploadFile: PUT the content through the retry wrapper;
a non-ok response throws an error carrying status and body text; on a 2xx
response the containing directory's remote cache is refreshed (an awaited
call, so a rejection there would propagate) and the operation returns. -/
def uploadFile (wput wref : World) (c : Client) (path : List Char) (_content : String) :
    Client × Except String Unit :=
  let r := fetchWithRetry wput c false 0
  match r.outcome with
  | .error m => (r.client, .error m)
  | .ok response =>
    if !response.ok then
      (r.client, .error ("OpenList 上传失败: " ++ toString response.status ++ " - " ++ response.bodyText))
    else
      let _dir := dirOf path
      let rr := refreshDirectory wref r.client
      match rr.2 with
      | .error m => (rr.1, .error m)
      | .ok _ => (rr.1, .ok ())

/-- JSON scalar value as carried by the request body fields.  Numbers are
modelled as integers: no arithmetic is performed on them, only JavaScript
truthiness (zero is falsy) matters. -/
inductive JVal where
  | str (s : String)
  | num (n : Int)
  | bool (b : Bool)
  | null
deriving DecidableEq

/-- JavaScript truthiness of a JSON scalar. -/
def JVal.truthy : JVal → Bool
  | .str s => !s.isEmpty
  | .num n => n != 0
  | .bool b => b
  | .null => false

/-- JavaScript truthiness of an optional JSON scalar: undefined is falsy. -/
def truthyOpt : Option JVal → Bool
  | some v => v.truthy
  | none => false

/-- JavaScript a-or-b on an optional JSON scalar: the value if truthy,
otherwise the default. -/
def jvalOr (o : Option JVal) (d : JVal) : JVal :=
  match o with
  | some v => if v.truthy then v else d
  | none => d

/-- JavaScript a-or-b on an optional string: the string if truthy,
otherwise the default. -/
def strOr (o : Option String) (d : String) : String :=
  match o with
  | some s => if s.isEmpty then d else s
  | none => d

/-- One Folder Entry of the Metadata Document, as constructed by the
correction handler (lines 98-108 of the route source). -/
structure FolderEntry where
  tmdb_id : Option JVal
  title : Option JVal
  poster_path : Option JVal
  release_date : JVal
  overview : JVal
  vote_average : JVal
  media_type : Option JVal
  last_updated : Nat
  failed : Bool
deriving DecidableEq

/-- The Metadata Document: the folders object of metainfo.json, a finite
map from folder name to Folder Entry kept as an association list so that
key insertion order is preserved as in a JavaScript object. -/
structure MetaInfo where
  folders : List (String × FolderEntry)
deriving DecidableEq

/-- JavaScript object property assignment on the folders map: an existing
key keeps its position and gets the new value, a new key is appended. -/
def setKey : List (String × FolderEntry) → String → FolderEntry → List (String × FolderEntry)
  | [], k, v => [(k, v)]
  | (k', v') :: rest, k, v =>
    if k' = k then (k, v) :: rest else (k', v') :: setKey rest k v

/-- JavaScript object property lookup on the folders map. -/
def lookupKey : List (String × FolderEntry) → String → Option FolderEntry
  | [], _ => none
  | (k', v) :: rest, k => if k' = k then some v else lookupKey rest k

/-- Modelled from the spec: the Metadata Cache module (lib/openlist-cache,
imported by the route but not among the given sources) is a process-wide
mapping from storage root path to the last cached Metadata Document. -/
def Cache : Type := String → Option MetaInfo

/-- Modelled from the spec: getCachedMetaInfo returns the last cached
document for the root, or an absent indicator. -/
def getCachedMetaInfo (cache : Cache) (rootPath : String) : Option MetaInfo :=
  cache rootPath

/-- Modelled from the spec: setCachedMetaInfo stores or overwrites the
cached document for the root. -/
def setCachedMetaInfo (cache : Cache) (rootPath : String) (m : MetaInfo) : Cache :=
  fun r => if r = rootPath then some m else cache r

/-- Modelled from the spec: invalidateMetaInfoCache clears any cached
document for the root. -/
def invalidateMetaInfoCache (cache : Cache) (rootPath : String) : Cache :=
  fun r => if r = rootPath then none else cache r

/-- Auth info resolved from the request cookie. -/
structure AuthInfo where
  username : Option String
deriving DecidableEq

/-- Truthiness of the auth check at the top of the handler: absent auth
info or a falsy username fails. -/
def authTruthy : Option AuthInfo → Bool
  | none => false
  | some ai => strTruthy ai.username

/-- OpenList section of the resolved configuration. -/
structure OpenListConfig where
  URL : Option String
  Token : Option String
  Username : Option String
  Password : Option String
  RootPath : Option String
deriving DecidableEq

/-- Resolved configuration object, exposing the OpenList section. -/
structure AppConfig where
  OpenListConfig : Option OpenListConfig
deriving DecidableEq

/-- Parsed JSON request body of the correction endpoint.  The folder field
is a string when present; the remaining fields are opaque JSON scalars. -/
structure Body where
  folder : Option String
  tmdbId : Option JVal
  title : Option JVal
  posterPath : Option JVal
  releaseDate : Option JVal
  overview : Option JVal
  voteAverage : Option JVal
  mediaType : Option JVal
deriving DecidableEq

/-- File descriptor returned by the storage API for a path (the data field
of the fs/get response); only the raw_url download link matters here. -/
structure OpenListFile where
  raw_url : Option String
deriving DecidableEq

/-- Parsed fs/get response: a code, a message and the file descriptor. -/
structure OpenListGetResponse where
  code : Int
  message : String
  data : OpenListFile
deriving DecidableEq

/-- Outcome of the plain download fetch of the raw url: a thrown network
error, or a response with its ok flag and body text. -/
inductive DownloadOutcome where
  | thrown (msg : String)
  | resp (ok : Bool) (text : String)
deriving DecidableEq

/-- World for one handler run: outcome of client.getFile on the document
path (a thrown error, or the parsed response), outcome of the raw-url
download, the JSON parser verdict on a downloaded text, outcome of
client.uploadFile, and the Date.now clock reading. -/
structure HandlerWorld where
  getFileOutcome : Except String OpenListGetResponse
  download : DownloadOutcome
  parse : String → Except String MetaInfo
  upload : Except String Unit
  now : Nat

/-- Network call issued by the handler through the client or fetch. -/
inductive NetCall where
  | getFile (path : List Char)
  | download (url : String)
  | upload (path : List Char)
deriving DecidableEq

/-- The handler's possible JSON responses, one constructor per distinct
response of the route source. -/
inductive HandlerResp where
  | unauthorized
  | missingParams
  | notConfigured
  | readFailed
  | notFound
  | success
  | serverError (details : String)
deriving DecidableEq

/-- Result of one handler run: the HTTP response, the Metadata Cache state
after the run, the network calls issued, and two trace fields recording
the document the run started from and the document it serialized and
uploaded (none when the run never reached that point). -/
structure PostResult where
  resp : HandlerResp
  cache : Cache
  netCalls : List NetCall
  baseDoc : Option MetaInfo
  uploaded : Option MetaInfo

/-- Document path of metainfo.json under a root path, as built by the
route source: the root, a separator unless the root already ends with one,
then the file name.  Paths are character lists. -/
def metainfoName : List Char := "metainfo.json".toList

/-- Path construction expression used at lines 61 and 111 of the route. -/
def metainfoPathOf (rootPath : List Char) : List Char :=
  rootPath ++ (if rootPath.getLast? = some '/' then [] else ['/']) ++ metainfoName

/-- Freshly constructed Folder Entry of a correction (route lines 98-108):
built from the submitted fields only, stamped with the clock reading and
with the failed flag cleared. -/
def correctionEntry (body : Body) (now : Nat) : FolderEntry :=
  { tmdb_id := body.tmdbId
    title := body.title
    poster_path := body.posterPath
    release_date := jvalOr body.releaseDate (JVal.str "")
    overview := jvalOr body.overview (JVal.str "")
    vote_average := jvalOr body.voteAverage (JVal.num 0)
    media_type := body.mediaType
    last_updated := now
    failed := false }

/-- Tail of the handler once a document is in hand (route lines 97-123):
replace the target folder's entry, serialize, upload, and on upload
success invalidate and repopulate the cache; an upload error is caught by
the outer handler catch and reported as a 500. -/
def applyCorrection (body : Body) (w : HandlerWorld) (cache : Cache) (rootPath : String)
    (calls : List NetCall) (metaInfo : MetaInfo) : PostResult :=
  let folder := body.folder.getD ""
  let updated : MetaInfo := ⟨setKey metaInfo.folders folder (correctionEntry body w.now)⟩
  let path := metainfoPathOf rootPath.toList
  match w.upload with
  | .error e => ⟨.serverError e, cache, calls ++ [.upload path], some metaInfo, some updated⟩
  | .ok _ =>
    ⟨.success,
      setCachedMetaInfo (invalidateMetaInfoCache cache rootPath) rootPath updated,
      calls ++ [.upload path], some metaInfo, some updated⟩

/-- The POST /api/openlist/correct handler: auth check, body validation,
config check, cache lookup, on a miss the fetch-download-parse of
metainfo.json guarded by a try block (any thrown error gives the 500
read-failure response; a fetched response without a usable file leaves the
document absent and gives the 404 response), then the correction tail. -/
def POSTcorrect (authInfo : Option AuthInfo) (body : Body) (config : AppConfig)
    (cache : Cache) (w : HandlerWorld) : PostResult :=
  if !authTruthy authInfo then
    ⟨.unauthorized, cache, [], none, none⟩
  else if !(strTruthy body.folder && truthyOpt body.tmdbId) then
    ⟨.missingParams, cache, [], none, none⟩
  else
    match config.OpenListConfig with
    | none => ⟨.notConfigured, cache, [], none, none⟩
    | some oc =>
      if !(strTruthy oc.URL && strTruthy oc.Token) then
        ⟨.notConfigured, cache, [], none, none⟩
      else
        let rootPath := strOr oc.RootPath "/"
        match getCachedMetaInfo cache rootPath with
        | some metaInfo => applyCorrection body w cache rootPath [] metaInfo
        | none =>
          let path := metainfoPathOf rootPath.toList
          match w.getFileOutcome with
          | .error _ => ⟨.readFailed, cache, [.getFile path], none, none⟩
          | .ok fileResponse =>
            if fileResponse.code == 200 && strTruthy fileResponse.data.raw_url then
              let url := fileResponse.data.raw_url.getD ""
              match w.download with
              | .thrown _ => ⟨.readFailed, cache, [.getFile path, .download url], none, none⟩
              | .resp dok text =>
                if !dok then
                  ⟨.readFailed, cache, [.getFile path, .download url], none, none⟩
                else
                  match w.parse text with
                  | .error _ => ⟨.readFailed, cache, [.getFile path, .download url], none, none⟩
                  | .ok m =>
                    applyCorrection body w cache rootPath [.getFile path, .download url] m
            else
              ⟨.notFound, cache, [.getFile path], none, none⟩

/-! Theorems about the retry wrapper (claim C1). -/

/-- C1 (amended): through the retry wrapper, with truthy credentials and a
first response of status 401, exactly one login is attempted; if the login
yields a token, exactly one reissued request is made and its response,
even another 401, is returned with no third request; if the login fails,
the first 401 is returned with no reissued request; without truthy
credentials the first 401 is returned at once with no login and no
reissue. -/
theorem fetchWithRetry_retry_protocol (w : World) (c : Client) (r0 : Response)
    (hnet : w.net 0 = NetOutcome.resp r0) (h401 : r0.status = 401) :
    ((strTruthy c.username && strTruthy c.password) = false →
      fetchWithRetry w c false 0 = ⟨c, .ok r0, 1, 0⟩) ∧
    ((strTruthy c.username && strTruthy c.password) = true → w.login = none →
      fetchWithRetry w c false 0 = ⟨c, .ok r0, 1, 1⟩) ∧
    (∀ t r1, (strTruthy c.username && strTruthy c.password) = true →
      w.login = some t → w.net 1 = NetOutcome.resp r1 →
      fetchWithRetry w c false 0 = ⟨{ c with token := t }, .ok r1, 2, 1⟩) := by
  refine ⟨?_, ?_, ?_⟩
  · intro hcred
    rw [fetchWithRetry, hnet]
    simp [h401, hcred]
  · intro hcred hlogin
    rw [fetchWithRetry, hnet]
    simp only [Bool.and_eq_true] at hcred
    simp [h401, hcred.1, hcred.2, refreshToken, hlogin]
  · intro t r1 hcred hlogin hnet1
    rw [fetchWithRetry, hnet]
    simp only [Bool.and_eq_true] at hcred
    simp only [h401, hcred.1, hcred.2, refreshToken, hlogin, beq_self_eq_true,
      Bool.not_false, Bool.and_true, Bool.true_and, Bool.and_self, if_true, dif_pos]
    rw [fetchWithRetry, hnet1]
    simp

/-- World where every data request gets a 401 and the login call fails. -/
def cxWorldLoginFails : World :=
  { net := fun _ => .resp ⟨401, ""⟩, login := none }

/-- World where every data request gets a 401 and the login call yields a
fresh token. -/
def cxWorldLoginOk : World :=
  { net := fun _ => .resp ⟨401, ""⟩, login := some "fresh" }

/-- Client configured with truthy username and password. -/
def cxClientCreds : Client := ⟨"http://o", "tok", some "u", some "p"⟩

/-- C1 counterexample: with truthy credentials and a first 401, when the
re-authentication login fails the wrapper issues no reissued request at
all (one request in total, not two), contradicting the claim that exactly
one re-authentication and exactly one reissued request occur whenever
credentials are configured and the first response is a 401. -/
theorem fetchWithRetry_no_reissue_on_login_failure :
    (strTruthy cxClientCreds.username && strTruthy cxClientCreds.password) = true ∧
    cxWorldLoginFails.net 0 = NetOutcome.resp ⟨401, ""⟩ ∧
    (fetchWithRetry cxWorldLoginFails cxClientCreds false 0).nRequests = 1 ∧
    (fetchWithRetry cxWorldLoginFails cxClientCreds false 0).nLogins = 1 := by
  refine ⟨by decide, rfl, ?_, ?_⟩ <;>
    · simp [fetchWithRetry, cxWorldLoginFails, cxClientCreds, refreshToken, strTruthy]
      decide

/-- Closed instance of the amended retry-protocol theorem: both attempts
return 401, the login succeeds, and the wrapper returns the second 401
after exactly two requests and one login. -/
theorem fetchWithRetry_retry_protocol_witness :
    fetchWithRetry cxWorldLoginOk cxClientCreds false 0 =
      ⟨{ cxClientCreds with token := "fresh" }, .ok ⟨401, ""⟩, 2, 1⟩ :=
  (fetchWithRetry_retry_protocol cxWorldLoginOk cxClientCreds ⟨401, ""⟩ rfl rfl).2.2
    "fresh" ⟨401, ""⟩ (by decide) rfl rfl

/-! Theorems about uploadFile and the advisory refresh (claim C5). -/

/-- Helper: refreshDirectory returns normally whatever its network world
does, because both the non-ok branch and the catch branch only log. -/
theorem refreshDirectory_swallows (w : World) (c : Client) :
    (refreshDirectory w c).2 = Except.ok () := by
  simp only [refreshDirectory]
  split <;> rfl

/-- C5: whenever the PUT request of uploadFile gets a 2xx response, the
operation returns success for every possible outcome of the subsequent
advisory directory refresh, whose errors are logged and swallowed. -/
theorem uploadFile_ok_despite_refresh (wput wref : World) (c : Client)
    (path : List Char) (content : String) (resp : Response)
    (hput : (fetchWithRetry wput c false 0).outcome = Except.ok resp)
    (h2xx : resp.ok = true) :
    (uploadFile wput wref c path content).2 = Except.ok () := by
  simp only [uploadFile]
  rw [hput]
  simp only [h2xx, Bool.not_true, Bool.false_eq_true, if_false]
  have hr := refreshDirectory_swallows wref (fetchWithRetry wput c false 0).client
  rw [hr]

/-- World whose single data request succeeds with a 200. -/
def putOkWorld : World := { net := fun _ => .resp ⟨200, ""⟩, login := none }

/-- World whose every request throws, making the advisory refresh fail. -/
def refreshDownWorld : World := { net := fun _ => .thrown "network down", login := none }

/-- Closed instance of the C5 theorem: the PUT succeeds, the refresh world
throws on every request, and uploadFile still returns success. -/
theorem uploadFile_ok_despite_refresh_witness :
    (uploadFile putOkWorld refreshDownWorld cxClientCreds
      ("/media/metainfo.json".toList) "doc").2 = Except.ok () :=
  uploadFile_ok_despite_refresh putOkWorld refreshDownWorld cxClientCreds
    ("/media/metainfo.json".toList) "doc" ⟨200, ""⟩
    (by rw [fetchWithRetry]; rfl) (by decide)

/-! Theorems about the document path construction (claim C7). -/

/-- C7 (amended): the roots of the spec examples resolve to the expected
document path; for every root the resulting path has at least one
separator before the file name; and for every root that does not itself
end in a doubled separator, the path ends with exactly one separator
before the file name. -/
theorem metainfoPathOf_separator (root : List Char) :
    metainfoPathOf ("/media".toList) = ("/media/metainfo.json").toList ∧
    metainfoPathOf ("/media/".toList) = ("/media/metainfo.json").toList ∧
    (('/' :: metainfoName) <:+ metainfoPathOf root) ∧
    (¬ (['/', '/'] <:+ root) → ¬ (('/' :: '/' :: metainfoName) <:+ metainfoPathOf root)) := by
  refine ⟨by decide, by decide, ?_, ?_⟩
  · unfold metainfoPathOf
    by_cases h : root.getLast? = some '/'
    · rw [if_pos h]
      obtain ⟨t, ht⟩ := List.getLast?_eq_some_iff.mp h
      subst ht
      rw [show (t ++ ['/']) ++ [] ++ metainfoName = t ++ ('/' :: metainfoName) by simp]
      exact List.suffix_append t _
    · rw [if_neg h]
      rw [show root ++ ['/'] ++ metainfoName = root ++ ('/' :: metainfoName) by simp]
      exact List.suffix_append root _
  · intro hroot hcon
    unfold metainfoPathOf at hcon
    by_cases h : root.getLast? = some '/'
    · rw [if_pos h] at hcon
      obtain ⟨t, ht⟩ := List.getLast?_eq_some_iff.mp h
      subst ht
      rw [show (t ++ ['/']) ++ [] ++ metainfoName = t ++ ('/' :: metainfoName) by simp] at hcon
      obtain ⟨u, hu⟩ := hcon
      rw [show u ++ ('/' :: '/' :: metainfoName) = (u ++ ['/', '/']) ++ metainfoName by simp,
        show t ++ ('/' :: metainfoName) = (t ++ ['/']) ++ metainfoName by simp] at hu
      have hcancel : u ++ ['/', '/'] = t ++ ['/'] := List.append_inj_left' hu rfl
      exact hroot (hcancel ▸ List.suffix_append u ['/', '/'])
    · rw [if_neg h] at hcon
      rw [show root ++ ['/'] ++ metainfoName = root ++ ('/' :: metainfoName) by simp] at hcon
      obtain ⟨u, hu⟩ := hcon
      rw [show u ++ ('/' :: '/' :: metainfoName) = (u ++ ['/']) ++ ('/' :: metainfoName) by simp] at hu
      have hcancel : u ++ ['/'] = root := List.append_inj_left' hu rfl
      exact h (hcancel ▸ List.getLast?_concat u)

/-- C7 counterexample: a configured root ending in a doubled separator
yields a document path with two separators before the file name, so the
path does not end with exactly one separator before metainfo.json. -/
theorem metainfoPathOf_double_separator :
    metainfoPathOf ("/media//".toList) = ("/media//metainfo.json").toList ∧
    (('/' :: '/' :: metainfoName) <:+ metainfoPathOf ("/media//".toList)) := by
  refine ⟨by decide, ?_⟩
  decide

/-- Closed instance of the amended path theorem at the root of the spec
example, discharging the no-doubled-separator hypothesis there. -/
theorem metainfoPathOf_separator_witness :
    ¬ (('/' :: '/' :: metainfoName) <:+ metainfoPathOf ("/media".toList)) :=
  (metainfoPathOf_separator ("/media".toList)).2.2.2 (by decide)

/-! Helper lemmas about the folders map and the handler structure. -/

/-- Assigning a key and then reading it back yields the assigned value. -/
theorem lookupKey_setKey_self (l : List (String × FolderEntry)) (k : String) (v : FolderEntry) :
    lookupKey (setKey l k v) k = some v := by
  induction l with
  | nil => simp [setKey, lookupKey]
  | cons p rest ih =>
    obtain ⟨k', v'⟩ := p
    by_cases h : k' = k
    · simp [setKey, h, lookupKey]
    · simp [setKey, h, lookupKey, ih]

/-- Assigning a key leaves every other key's value unchanged. -/
theorem lookupKey_setKey_ne (l : List (String × FolderEntry)) (k k' : String)
    (v : FolderEntry) (h : k' ≠ k) :
    lookupKey (setKey l k v) k' = lookupKey l k' := by
  induction l with
  | nil => simp [setKey, lookupKey, Ne.symm h]
  | cons p rest ih =>
    obtain ⟨a, b⟩ := p
    by_cases ha : a = k
    · subst ha
      simp [setKey, lookupKey, Ne.symm h]
    · simp [setKey, ha, lookupKey, ih]

/-- The correction tail records the document it started from and uploads
the document with the target folder's entry replaced. -/
theorem applyCorrection_base_uploaded (body : Body) (w : HandlerWorld) (cache : Cache)
    (rootPath : String) (calls : List NetCall) (m : MetaInfo) :
    (applyCorrection body w cache rootPath calls m).baseDoc = some m ∧
    (applyCorrection body w cache rootPath calls m).uploaded =
      some ⟨setKey m.folders (body.folder.getD "") (correctionEntry body w.now)⟩ := by
  simp only [applyCorrection]
  split <;> simp

/-- When the upload throws, the correction tail leaves the cache alone. -/
theorem applyCorrection_cache_of_error (body : Body) (w : HandlerWorld) (cache : Cache)
    (rootPath : String) (calls : List NetCall) (m : MetaInfo) (e : String)
    (hup : w.upload = Except.error e) :
    (applyCorrection body w cache rootPath calls m).cache = cache := by
  simp only [applyCorrection, hup]

/-- When the correction tail reports success, the cache at the root holds
exactly the uploaded document. -/
theorem applyCorrection_success_cache (body : Body) (w : HandlerWorld) (cache : Cache)
    (rootPath : String) (calls : List NetCall) (m : MetaInfo)
    (h : (applyCorrection body w cache rootPath calls m).resp = HandlerResp.success) :
    (applyCorrection body w cache rootPath calls m).cache rootPath =
      (applyCorrection body w cache rootPath calls m).uploaded := by
  cases hu : w.upload with
  | error e => simp [applyCorrection, hu] at h
  | ok u => simp [applyCorrection, hu, setCachedMetaInfo]

/-- Every handler run either stops before mutating anything (no base or
uploaded document, cache untouched, response not success) or hands over to
the correction tail with the configured root path. -/
theorem POSTcorrect_run_shape (a : Option AuthInfo) (b : Body) (cfg : AppConfig)
    (cache : Cache) (w : HandlerWorld) :
    ((POSTcorrect a b cfg cache w).uploaded = none ∧
     (POSTcorrect a b cfg cache w).baseDoc = none ∧
     (POSTcorrect a b cfg cache w).cache = cache ∧
     (POSTcorrect a b cfg cache w).resp ≠ HandlerResp.success) ∨
    (∃ oc calls m, cfg.OpenListConfig = some oc ∧
      POSTcorrect a b cfg cache w =
        applyCorrection b w cache (strOr oc.RootPath "/") calls m) := by
  simp only [POSTcorrect]
  repeat' split
  all_goals try (left; exact ⟨rfl, rfl, rfl, by simp⟩)
  all_goals (right; exact ⟨_, _, _, by assumption, rfl⟩)

/-- Shared helper: whenever a run records an uploaded document, that
document's entry for the submitted folder is the freshly constructed
correction entry. -/
theorem POSTcorrect_uploaded_entry (a : Option AuthInfo) (b : Body) (cfg : AppConfig)
    (cache : Cache) (w : HandlerWorld) (s : String) (d : MetaInfo)
    (hs : b.folder = some s)
    (hd : (POSTcorrect a b cfg cache w).uploaded = some d) :
    lookupKey d.folders s = some (correctionEntry b w.now) := by
  rcases POSTcorrect_run_shape a b cfg cache w with ⟨hn, -, -, -⟩ | ⟨oc, calls, m, -, heq⟩
  · rw [hd] at hn; exact absurd hn (by simp)
  · rw [heq] at hd
    rw [(applyCorrection_base_uploaded b w cache (strOr oc.RootPath "/") calls m).2] at hd
    have hd' := Option.some.inj hd
    subst hd'
    simp only [hs, Option.getD_some]
    exact lookupKey_setKey_self m.folders s (correctionEntry b w.now)

/-! Theorems for the handler claims. -/

/-- C2: when the upload of the serialized document throws, the whole
Metadata Cache is left exactly as it was before the correction began. -/
theorem post_upload_error_cache_unchanged (a : Option AuthInfo) (b : Body)
    (cfg : AppConfig) (cache : Cache) (w : HandlerWorld) (e : String)
    (hup : w.upload = Except.error e) :
    (POSTcorrect a b cfg cache w).cache = cache := by
  rcases POSTcorrect_run_shape a b cfg cache w with ⟨-, -, hc, -⟩ | ⟨oc, calls, m, -, heq⟩
  · exact hc
  · rw [heq]
    exact applyCorrection_cache_of_error b w cache _ calls m e hup

/-- C3: after a successful correction of folder s, the uploaded document's
entry for s is the freshly constructed Folder Entry built from the
submitted fields alone, with failed cleared and last_updated stamped with
the run's clock reading. -/
theorem post_success_entry_fresh (a : Option AuthInfo) (b : Body) (cfg : AppConfig)
    (cache : Cache) (w : HandlerWorld) (s : String) (d : MetaInfo)
    (hs : b.folder = some s)
    (hr : (POSTcorrect a b cfg cache w).resp = HandlerResp.success)
    (hd : (POSTcorrect a b cfg cache w).uploaded = some d) :
    lookupKey d.folders s = some (correctionEntry b w.now) ∧
    (correctionEntry b w.now).failed = false ∧
    (correctionEntry b w.now).last_updated = w.now := by
  exact ⟨POSTcorrect_uploaded_entry a b cfg cache w s d hs hd, rfl, rfl⟩

/-- C4: a correction of folder s leaves every other folder's entry
untouched, both in the uploaded document (compared with the document the
run started from) and in the cache entry a successful run stores, which is
exactly the uploaded document. -/
theorem post_frame_other_folders (a : Option AuthInfo) (b : Body) (cfg : AppConfig)
    (cache : Cache) (w : HandlerWorld) (d m : MetaInfo) (s k : String)
    (hs : b.folder = some s) (hk : k ≠ s)
    (hbase : (POSTcorrect a b cfg cache w).baseDoc = some m)
    (hd : (POSTcorrect a b cfg cache w).uploaded = some d) :
    lookupKey d.folders k = lookupKey m.folders k ∧
    (∀ oc, cfg.OpenListConfig = some oc →
      (POSTcorrect a b cfg cache w).resp = HandlerResp.success →
      (POSTcorrect a b cfg cache w).cache (strOr oc.RootPath "/") = some d) := by
  rcases POSTcorrect_run_shape a b cfg cache w with ⟨hn, -, -, -⟩ | ⟨oc', calls, m', hoc', heq⟩
  · rw [hd] at hn; exact absurd hn (by simp)
  · obtain ⟨hb', hu'⟩ := applyCorrection_base_uploaded b w cache (strOr oc'.RootPath "/") calls m'
    rw [heq] at hbase hd
    have hm : m' = m := Option.some.inj (hb'.symm.trans hbase)
    have hdd : (⟨setKey m'.folders (b.folder.getD "") (correctionEntry b w.now)⟩ : MetaInfo) = d :=
      Option.some.inj (hu'.symm.trans hd)
    refine ⟨?_, ?_⟩
    · rw [← hdd, ← hm]
      simp only [hs, Option.getD_some]
      exact lookupKey_setKey_ne m'.folders s k (correctionEntry b w.now) hk
    · intro oc hoc hresp
      obtain rfl : oc' = oc := by
        rw [hoc] at hoc'
        exact (Option.some.inj hoc').symm
      rw [heq] at hresp
      rw [heq]
      rw [applyCorrection_success_cache b w cache (strOr oc'.RootPath "/") calls m' hresp]
      rw [hu', hdd]

/-- C6: on a cache miss, a thrown failure in the fetch, download or parse
step yields the 500 read-failure response, while a fetched response
without a usable file (code not 200 or no truthy raw_url) yields the
distinct 404 not-found response; the two responses are different
constructors, so the outcomes never coincide. -/
theorem post_fetch_failure_modes (a : Option AuthInfo) (b : Body) (cfg : AppConfig)
    (cache : Cache) (w : HandlerWorld) (oc : OpenListConfig)
    (ha : authTruthy a = true)
    (hv : (strTruthy b.folder && truthyOpt b.tmdbId) = true)
    (hc : cfg.OpenListConfig = some oc)
    (hok : (strTruthy oc.URL && strTruthy oc.Token) = true)
    (hmiss : getCachedMetaInfo cache (strOr oc.RootPath "/") = none) :
    ((∀ e, w.getFileOutcome = Except.error e →
      (POSTcorrect a b cfg cache w).resp = HandlerResp.readFailed) ∧
    (∀ fr, w.getFileOutcome = Except.ok fr →
      (fr.code == 200 && strTruthy fr.data.raw_url) = false →
      (POSTcorrect a b cfg cache w).resp = HandlerResp.notFound) ∧
    (∀ fr msg, w.getFileOutcome = Except.ok fr →
      (fr.code == 200 && strTruthy fr.data.raw_url) = true →
      w.download = DownloadOutcome.thrown msg →
      (POSTcorrect a b cfg cache w).resp = HandlerResp.readFailed) ∧
    (∀ fr text, w.getFileOutcome = Except.ok fr →
      (fr.code == 200 && strTruthy fr.data.raw_url) = true →
      w.download = DownloadOutcome.resp false text →
      (POSTcorrect a b cfg cache w).resp = HandlerResp.readFailed) ∧
    (∀ fr text e, w.getFileOutcome = Except.ok fr →
      (fr.code == 200 && strTruthy fr.data.raw_url) = true →
      w.download = DownloadOutcome.resp true text →
      w.parse text = Except.error e →
      (POSTcorrect a b cfg cache w).resp = HandlerResp.readFailed) ∧
    HandlerResp.readFailed ≠ HandlerResp.notFound) := by
  refine ⟨?_, ?_, ?_, ?_, ?_, by simp⟩
  · intro e hg
    simp [POSTcorrect, ha, hv, hc, hok, hmiss, hg]
  · intro fr hg hbad
    simp [POSTcorrect, ha, hv, hc, hok, hmiss, hg, hbad]
  · intro fr msg hg hgood hdl
    simp [POSTcorrect, ha, hv, hc, hok, hmiss, hg, hgood, hdl]
  · intro fr text hg hgood hdl
    simp [POSTcorrect, ha, hv, hc, hok, hmiss, hg, hgood, hdl]
  · intro fr text e hg hgood hdl hp
    simp [POSTcorrect, ha, hv, hc, hok, hmiss, hg, hgood, hdl, hp]

/-- C8: with a missing folder field or a missing tmdbId field the handler
answers the 400 missing-parameters response and issues no network call. -/
theorem post_validation_before_network (a : Option AuthInfo) (b : Body)
    (cfg : AppConfig) (cache : Cache) (w : HandlerWorld)
    (ha : authTruthy a = true)
    (hmiss : b.folder = none ∨ b.tmdbId = none) :
    (POSTcorrect a b cfg cache w).resp = HandlerResp.missingParams ∧
    (POSTcorrect a b cfg cache w).netCalls = [] := by
  have hv : (strTruthy b.folder && truthyOpt b.tmdbId) = false := by
    rcases hmiss with h | h <;> simp [h, strTruthy, truthyOpt]
  constructor <;> simp [POSTcorrect, ha, hv]

/-- C10: a present-but-falsy folder (empty string) or tmdbId (number 0 or
empty string) is rejected with the same 400 missing-parameters response as
a fully absent field, before any network call. -/
theorem post_falsy_fields_rejected (a : Option AuthInfo) (b : Body)
    (cfg : AppConfig) (cache : Cache) (w : HandlerWorld)
    (ha : authTruthy a = true)
    (hfalsy : b.folder = some "" ∨ b.tmdbId = some (JVal.num 0) ∨
      b.tmdbId = some (JVal.str "")) :
    (POSTcorrect a b cfg cache w).resp = HandlerResp.missingParams ∧
    (POSTcorrect a b cfg cache w).netCalls = [] := by
  have hv : (strTruthy b.folder && truthyOpt b.tmdbId) = false := by
    rcases hfalsy with h | h | h
    · rw [h, show strTruthy (some "") = false by decide]
      simp
    · rw [h, show truthyOpt (some (JVal.num 0)) = false by decide]
      simp
    · rw [h, show truthyOpt (some (JVal.str "")) = false by decide]
      simp
  constructor <;> simp [POSTcorrect, ha, hv]

/-- C9 (amended): the entry written by a correction run carries exactly
the run's clock reading as last_updated, so across two runs writing the
same folder the later stamp is strictly greater precisely when the later
run's clock reading is strictly greater; equal clock readings give equal
stamps. -/
theorem post_last_updated_tracks_clock (a1 a2 : Option AuthInfo) (b1 b2 : Body)
    (cfg1 cfg2 : AppConfig) (cache1 cache2 : Cache) (w1 w2 : HandlerWorld)
    (s : String) (d1 d2 : MetaInfo) (e1 e2 : FolderEntry)
    (hs1 : b1.folder = some s) (hs2 : b2.folder = some s)
    (h1 : (POSTcorrect a1 b1 cfg1 cache1 w1).uploaded = some d1)
    (h2 : (POSTcorrect a2 b2 cfg2 cache2 w2).uploaded = some d2)
    (he1 : lookupKey d1.folders s = some e1)
    (he2 : lookupKey d2.folders s = some e2) :
    e1.last_updated = w1.now ∧ e2.last_updated = w2.now ∧
    (w1.now < w2.now → e1.last_updated < e2.last_updated) := by
  have k1 := POSTcorrect_uploaded_entry a1 b1 cfg1 cache1 w1 s d1 hs1 h1
  have k2 := POSTcorrect_uploaded_entry a2 b2 cfg2 cache2 w2 s d2 hs2 h2
  rw [he1] at k1
  rw [he2] at k2
  have q1 := Option.some.inj k1
  have q2 := Option.some.inj k2
  subst q1
  subst q2
  exact ⟨rfl, rfl, fun h => h⟩

/-! Concrete runs used by the counterexamples and witnesses. -/

/-- An authenticated user. -/
def exAuth : Option AuthInfo := some ⟨some "u"⟩

/-- A valid correction body targeting folder f. -/
def exBody : Body := ⟨some "f", some (JVal.num 7), none, none, none, none, none, none⟩

/-- A body whose tmdbId field is absent. -/
def exBodyNoId : Body := ⟨some "f", none, none, none, none, none, none, none⟩

/-- A body whose tmdbId field is present but the number 0. -/
def exBodyZeroId : Body := ⟨some "f", some (JVal.num 0), none, none, none, none, none, none⟩

/-- A configuration with URL, token and the root path of the examples. -/
def exCfg : AppConfig := ⟨some ⟨some "http://x", some "tok", none, none, some "/media"⟩⟩

/-- A pre-existing entry for another folder g. -/
def exEntryOld : FolderEntry :=
  ⟨some (JVal.num 9), none, none, JVal.str "", JVal.str "", JVal.num 0, none, 3, true⟩

/-- A cached document holding only folder g. -/
def exDoc : MetaInfo := ⟨[("g", exEntryOld)]⟩

/-- A cache holding the document for the configured root. -/
def exCache : Cache := fun r => if r = "/media" then some exDoc else none

/-- A cache holding nothing. -/
def emptyCache : Cache := fun _ => none

/-- A handler world whose upload succeeds at clock reading 5; the fetch
fields are never reached on a cache hit. -/
def exW : HandlerWorld :=
  ⟨Except.error "unused", DownloadOutcome.thrown "unused",
    fun _ => Except.error "unused", Except.ok (), 5⟩

/-- The same world at clock reading 6. -/
def exW6 : HandlerWorld := { exW with now := 6 }

/-- The same world with a failing upload. -/
def exWup : HandlerWorld := { exW with upload := Except.error "boom" }

/-- First example run: correct folder f at clock reading 5. -/
def exRun1 : PostResult := POSTcorrect exAuth exBody exCfg exCache exW

/-- Second example run at the same clock reading, starting from the cache
the first run left behind. -/
def exRun2 : PostResult := POSTcorrect exAuth exBody exCfg exRun1.cache exW

/-- C9 counterexample: two successive successful corrections of folder f
whose clock readings are both 5 write equal last_updated stamps, so the
later stamp is not strictly greater than the earlier one. -/
theorem post_last_updated_not_strict :
    exRun1.resp = HandlerResp.success ∧
    exRun2.resp = HandlerResp.success ∧
    (exRun1.uploaded.bind fun d => (lookupKey d.folders "f").map FolderEntry.last_updated)
      = some 5 ∧
    (exRun2.uploaded.bind fun d => (lookupKey d.folders "f").map FolderEntry.last_updated)
      = some 5 ∧
    ¬ (5 > 5) := by
  exact ⟨rfl, rfl, rfl, rfl, by decide⟩

/-- Closed instance of the amended clock theorem: runs at clock readings 5
and 6 stamp 5 and 6, and 5 is less than 6. -/
theorem post_last_updated_tracks_clock_witness :
    (correctionEntry exBody 5).last_updated = 5 ∧
    (correctionEntry exBody 6).last_updated = 6 ∧
    (5 < 6 → (correctionEntry exBody 5).last_updated < (correctionEntry exBody 6).last_updated) :=
  post_last_updated_tracks_clock exAuth exAuth exBody exBody exCfg exCfg exCache exCache
    exW exW6 "f" _ _ _ _ rfl rfl rfl rfl rfl rfl

/-- Closed instance of the C2 theorem: with a failing upload the cache
after the run is the cache before it. -/
theorem post_upload_error_cache_unchanged_witness :
    (POSTcorrect exAuth exBody exCfg exCache exWup).cache = exCache :=
  post_upload_error_cache_unchanged exAuth exBody exCfg exCache exWup "boom" rfl

/-- Closed instance of the C3 theorem at the first example run. -/
theorem post_success_entry_fresh_witness :
    lookupKey (⟨setKey exDoc.folders "f" (correctionEntry exBody 5)⟩ : MetaInfo).folders "f"
      = some (correctionEntry exBody 5) ∧
    (correctionEntry exBody 5).failed = false ∧
    (correctionEntry exBody 5).last_updated = 5 :=
  post_success_entry_fresh exAuth exBody exCfg exCache exW "f" _ rfl rfl rfl

/-- Closed instance of the C4 theorem: correcting folder f leaves the
pre-existing entry of folder g untouched. -/
theorem post_frame_other_folders_witness :
    lookupKey (⟨setKey exDoc.folders "f" (correctionEntry exBody 5)⟩ : MetaInfo).folders "g"
      = lookupKey exDoc.folders "g" :=
  (post_frame_other_folders exAuth exBody exCfg exCache exW
    ⟨setKey exDoc.folders "f" (correctionEntry exBody 5)⟩ exDoc "f" "g"
    rfl (by decide) rfl rfl).1

/-- Closed instance of the C6 theorem: on a cache miss with a throwing
getFile the run answers the 500 read-failure response. -/
theorem post_fetch_failure_modes_witness :
    (POSTcorrect exAuth exBody exCfg emptyCache exW).resp = HandlerResp.readFailed :=
  (post_fetch_failure_modes exAuth exBody exCfg emptyCache exW
    ⟨some "http://x", some "tok", none, none, some "/media"⟩
    (by decide) (by decide) rfl (by decide) rfl).1 "unused" rfl

/-- Closed instance of the C8 theorem: a body without tmdbId is rejected
with the 400 missing-parameters response and no network call. -/
theorem post_validation_before_network_witness :
    (POSTcorrect exAuth exBodyNoId exCfg exCache exW).resp = HandlerResp.missingParams ∧
    (POSTcorrect exAuth exBodyNoId exCfg exCache exW).netCalls = [] :=
  post_validation_before_network exAuth exBodyNoId exCfg exCache exW (by decide) (Or.inr rfl)

/-- Closed instance of the C10 theorem: a tmdbId of the number 0 is
rejected with the 400 missing-parameters response and no network call. -/
theorem post_falsy_fields_rejected_witness :
    (POSTcorrect exAuth exBodyZeroId exCfg exCache exW).resp = HandlerResp.missingParams ∧
    (POSTcorrect exAuth exBodyZeroId exCfg exCache exW).netCalls = [] :=
  post_falsy_fields_rejected exAuth exBodyZeroId exCfg exCache exW (by decide)
    (Or.inr (Or.inl rfl))
